import Mathlib

/-!
Verification of the prompt-construction and intent-derivation pipeline of the
paragourmet backend (`prompt/services/prompt_overpass_minimal.py` and
`prompt/views.py`), via a shallow embedding in Lean 4.

Modelling conventions:
* Python `dict[str, int]` (insertion ordered) is `List (String × Nat)` with
  unique keys; membership tests (`k in d`) are `keyMem`.
* Python `float` weather values are `ℚ` (only order comparisons against small
  integer thresholds occur, where floats behave like exact rationals).
* Python `str` is `String`; the substring operator `in` is `containsSub` on
  the character lists.
* The network call inside `fetch_pois_overpass` is modelled by an oracle
  `Nat → AttemptResult` giving the outcome of each attempt.
-/

namespace Paragourmet

/-- The static POI category table `POI_TAGS` (keys and Overpass predicates),
in source order. -/
def POI_TAGS : List (String × String) :=
  [("bus_stop",        "nwr[\"highway\"=\"bus_stop\"]"),
   ("subway_entrance", "nwr[\"railway\"=\"subway_entrance\"]"),
   ("marketplace",     "nwr[\"amenity\"=\"marketplace\"]"),
   ("supermarket",     "nwr[\"shop\"=\"supermarket\"]"),
   ("convenience",     "nwr[\"shop\"=\"convenience\"]"),
   ("cafe",            "nwr[\"amenity\"=\"cafe\"]"),
   ("bakery",          "nwr[\"shop\"=\"bakery\"]"),
   ("ice_cream",       "nwr[\"amenity\"=\"ice_cream\"]"),
   ("park",            "nwr[\"leisure\"=\"park\"]"),
   ("river",           "nwr[\"waterway\"=\"river\"]"),
   ("office",          "nwr[\"amenity\"=\"office\"]"),
   ("school",          "nwr[\"amenity\"=\"school\"]"),
   ("university",      "nwr[\"amenity\"=\"university\"]")]

/-- `POI_TAGS.keys()` in iteration order. -/
def POI_KEYS : List String := POI_TAGS.map Prod.fst

/-- Python `k in d` for a dict modelled as an association list. -/
def keyMem (k : String) (d : List (String × Nat)) : Bool :=
  d.any (fun p => p.1 == k)

/-- Boolean substring test on character lists: Python `needle in hay`. -/
def containsSub (needle : List Char) : List Char → Bool
  | [] => needle.isEmpty
  | c :: rest => needle.isPrefixOf (c :: rest) || containsSub needle rest

/-- Python `needle in hay` on strings. -/
def strContains (needle hay : String) : Bool :=
  containsSub needle.data hay.data

/-- Order-preserving de-duplication keeping the first occurrence, with an
accumulator of already-seen elements: the `seen` set idiom of the source. -/
def dedupFirstGo (seen : List String) : List String → List String
  | [] => []
  | x :: xs => if x ∈ seen then dedupFirstGo seen xs
               else x :: dedupFirstGo (x :: seen) xs

/-- The de-dup loop used at the end of `derive_intents` and of
`derive_bias_explanation`. -/
def dedupFirst (l : List String) : List String := dedupFirstGo [] l

/-- `sky.lower()` as a character list (ASCII case folding, as in CPython for
the sky strings at hand). -/
def strLower (s : String) : List Char := s.data.map Char.toLower

/-- `any(k in sky.lower() for k in ["sunny", "clear"])`. -/
def skyTriggers (sky : String) : Bool :=
  ["sunny", "clear"].any (fun k => containsSub k.data (strLower sky))

/-- Weather-based block of `derive_intents` (rules 1-4, in source order). -/
def weatherIntents (temperature_c : ℚ) (sky : String) (humidity_pct : ℤ) :
    List String :=
  (if 27 ≤ temperature_c then ["heat_relief", "hydration", "lighter_meal"] else []) ++
  (if temperature_c ≤ 5 then ["warmth", "hearty_meal"] else []) ++
  (if skyTriggers sky then ["very_sunny"] else []) ++
  (if 70 ≤ humidity_pct then ["high_humidity"] else [])

/-- POI-based block of `derive_intents` (rules 5-9, in source order). -/
def poiIntents (poi_counts : List (String × Nat)) : List String :=
  (if keyMem "bus_stop" poi_counts || keyMem "subway_entrance" poi_counts then
    ["portable", "quick_serve", "low_wait"] else []) ++
  (if keyMem "marketplace" poi_counts || keyMem "supermarket" poi_counts then
    ["street_food_friendly"] else []) ++
  (if keyMem "cafe" poi_counts || keyMem "bakery" poi_counts || keyMem "ice_cream" poi_counts then
    ["dessert_pairing_possible", "iced_beverage_pair"] else []) ++
  (if keyMem "park" poi_counts || keyMem "river" poi_counts then
    ["picnic_ready", "shareable"] else []) ++
  (if keyMem "office" poi_counts || keyMem "school" poi_counts || keyMem "university" poi_counts then
    ["rush_lunch", "budget_sensitive"] else [])

/-- `derive_intents`: weather rules, then POI rules, then de-dup keeping the
first occurrence. -/
def derive_intents (temperature_c : ℚ) (sky : String) (humidity_pct : ℤ)
    (poi_counts : List (String × Nat)) : List String :=
  dedupFirst (weatherIntents temperature_c sky humidity_pct ++ poiIntents poi_counts)

/-- `SceneInput`. `local_dt` is carried as its already-rendered
`strftime("%Y-%m-%d %A, %H:%M")` string, the only use the pipeline makes of
it; weather floats are rationals. -/
structure SceneInput where
  lat : ℚ
  lon : ℚ
  city : String
  district : String
  temperature_c : ℚ
  sky : String
  humidity_pct : ℤ
  radius_m : ℤ
  local_dt : String
deriving DecidableEq

/-- The hot/cold weather branch of `derive_bias_explanation` (an `if`/`elif`,
so mutually exclusive): contributed sentences. -/
def weatherBiasLines (temperature_c : ℚ) : List String :=
  if 27 ≤ temperature_c then
    ["Weather: hot (>=27°C) → prefer cold/light items, hydration, gentle acidity."]
  else if temperature_c ≤ 5 then
    ["Weather: cold (<=5°C) → prefer hot/hearty items."]
  else []

/-- The hot/cold weather branch of `derive_bias_explanation`: contributed
tags. -/
def weatherBiasTags (temperature_c : ℚ) : List String :=
  if 27 ≤ temperature_c then ["cold_pref", "light_pref", "hydration_pref"]
  else if temperature_c ≤ 5 then ["hot_pref", "hearty_pref"]
  else []

/-- Sentences contributed by all bias rules of `derive_bias_explanation`, in
source order, before fallback handling. -/
def biasLinesRaw (scene : SceneInput) (poi_counts : List (String × Nat))
    (intents : List String) : List String :=
  weatherBiasLines scene.temperature_c ++
  (if "very_sunny" ∈ intents then
    ["Sun: very sunny → refreshing/iced options acceptable."] else []) ++
  (if "high_humidity" ∈ intents then
    ["Humidity: high → crisp/acidic or broth-based relief acceptable."] else []) ++
  (if keyMem "bus_stop" poi_counts || keyMem "subway_entrance" poi_counts then
    ["Transit nearby → quick-serve, portable formats prioritized."] else []) ++
  (if keyMem "marketplace" poi_counts || keyMem "supermarket" poi_counts then
    ["Market area → casual, street-food-friendly formats acceptable."] else []) ++
  (if keyMem "cafe" poi_counts || keyMem "bakery" poi_counts || keyMem "ice_cream" poi_counts then
    ["Cafe/dessert spots nearby → dessert/iced drink pairing acceptable."] else []) ++
  (if keyMem "park" poi_counts || keyMem "river" poi_counts then
    ["Outdoor spots → picnic-ready, shareable formats prioritized."] else []) ++
  (if keyMem "office" poi_counts || keyMem "school" poi_counts || keyMem "university" poi_counts then
    ["Office/school area → rush-lunch, budget-sensitive options prioritized."] else [])

/-- Tags contributed by all bias rules of `derive_bias_explanation`, in
source order, before de-dup and fallback handling. -/
def biasTagsRaw (scene : SceneInput) (poi_counts : List (String × Nat))
    (intents : List String) : List String :=
  weatherBiasTags scene.temperature_c ++
  (if "very_sunny" ∈ intents then ["iced_ok", "refreshing_pref"] else []) ++
  (if "high_humidity" ∈ intents then ["acid_ok", "broth_ok"] else []) ++
  (if keyMem "bus_stop" poi_counts || keyMem "subway_entrance" poi_counts then
    ["quick_serve_pref", "portable_pref", "low_wait_pref"] else []) ++
  (if keyMem "marketplace" poi_counts || keyMem "supermarket" poi_counts then
    ["street_food_pref"] else []) ++
  (if keyMem "cafe" poi_counts || keyMem "bakery" poi_counts || keyMem "ice_cream" poi_counts then
    ["dessert_pairing_ok", "iced_beverage_pair_ok"] else []) ++
  (if keyMem "park" poi_counts || keyMem "river" poi_counts then
    ["picnic_pref", "shareable_pref"] else []) ++
  (if keyMem "office" poi_counts || keyMem "school" poi_counts || keyMem "university" poi_counts then
    ["rush_lunch_pref", "budget_pref"] else [])

/-- `derive_bias_explanation`: rule sentences and tags, tags de-duplicated,
fixed fallbacks substituted when nothing fired.  Returns
`(bias_lines, bias_tags)`. -/
def derive_bias_explanation (scene : SceneInput) (poi_counts : List (String × Nat))
    (intents : List String) : List String × List String :=
  let bias_lines := biasLinesRaw scene poi_counts intents
  let bias_tags_final := dedupFirst (biasTagsRaw scene poi_counts intents)
  (if bias_lines.isEmpty then
    ["No strong POI bias; default to weather/time suitability."] else bias_lines,
   if bias_tags_final.isEmpty then ["context_only"] else bias_tags_final)

/-- `k.replace("_", " ")` for the single-character pattern used by the
Prompt Builder. -/
def underscoreToSpace (s : String) : String :=
  ⟨s.data.map (fun c => if c = '_' then ' ' else c)⟩

/-- The `Surroundings` text of the prompt: `"nothing specific"` for an empty
mapping, else comma-joined converted keys followed by `" nearby"`. -/
def surroundingsStr (poi_counts : List (String × Nat)) : String :=
  if poi_counts.isEmpty then "nothing specific"
  else String.intercalate ", " (poi_counts.map (fun p => underscoreToSpace p.1)) ++ " nearby"

/-- Rendering of a rational scalar into the template (stand-in for Python
float formatting; no claim depends on its exact digits). -/
def ratStr (q : ℚ) : String := toString q

/-- The `location` binding of `build_paragraphica_prompt`. -/
def locationStr (scene : SceneInput) : String :=
  scene.district ++ ", " ++ scene.city ++ " (lat: " ++ ratStr scene.lat ++
  ", lon: " ++ ratStr scene.lon ++ ")"

/-- The `weather` binding of `build_paragraphica_prompt`. -/
def weatherStr (scene : SceneInput) : String :=
  ratStr scene.temperature_c ++ "°C, " ++ scene.sky ++ ", humidity " ++
  toString scene.humidity_pct ++ "%"

/-- The `intents_str` binding of `build_paragraphica_prompt`. -/
def intentsStr (intents : List String) : String :=
  if intents.isEmpty then "no specific intents" else String.intercalate ", " intents

/-- `build_paragraphica_prompt`: the fixed six-section template with the
scene, intent and bias data interpolated, transcribed from the source
f-string (including its indentation). -/
def build_paragraphica_prompt (scene : SceneInput) (poi_counts : List (String × Nat))
    (intents : List String) : String :=
  "[SCENE]\n    - Location: " ++ locationStr scene ++
  "\n    - Datetime (local): " ++ scene.local_dt ++
  "\n    - Weather: " ++ weatherStr scene ++
  "\n    - Surroundings: " ++ surroundingsStr poi_counts ++
  "\n    \n    [INTENT]\n    - Context intents: " ++ intentsStr intents ++
  "\n    \n    [BIAS]\n    - " ++
  String.intercalate "\n- " (derive_bias_explanation scene poi_counts intents).1 ++
  "\n    - Bias tags: " ++
  String.intercalate ", " (derive_bias_explanation scene poi_counts intents).2 ++
  "\n    - Guidance: adhere to bias tags; stay realistic for the given region; avoid exotic items.\n    \n    [RULES]\n    - Your primary goal is to suggest a single, specific food or drink menu item.\n    - The menu must be common and culturally appropriate for the given region/country.\n    - DO NOT mention any specific restaurant, brand, or store name.\n    - DO NOT use any of the words from the \x27Surroundings\x27 list in your suggestion.\n    - The suggestion must be realistic and highly relevant to the scene, especially the weather and derived intents.\n    - The output format MUST be a single, clean JSON object.\n    \n    [SCORING]\n    - High score for items that are familiar, locally popular, and seasonally appropriate.\n    - High score for items that align well with multiple intents (e.g., light and hydrating in hot weather).\n    - Low score for overly exotic, unrealistic, or culturally irrelevant items.\n    - Low score for generic, low-effort suggestions (e.g., \"water\", \"snack\").\n    - Low score for suggestions that ignore key intents (e.g., a hot, heavy soup on a sweltering day).\n    \n    [OUTPUT]\n    - Your response must be only a single JSON object and nothing else.\n    - The JSON object must have two keys: \"suggestion\" (string) and \"reason\" (string).\n    "

/-- Outcome of one Overpass attempt, as seen by `fetch_pois_overpass`:
a transport failure (`requests.exceptions.RequestException`), a parsing
failure (`ValueError`/`KeyError`), any other exception, or a successful,
well-formed response carrying the count totals in request order. -/
inductive AttemptResult where
  | transportError
  | parseError
  | unexpectedError
  | success (counts : List Nat)

/-- `poi_counts = {key: 0 for key in POI_TAGS.keys()}`. -/
def initPoiCounts : List (String × Nat) := POI_KEYS.map (fun k => (k, 0))

/-- The zero-initialised dict after the zip-assignment
`for (key, _), total in zip(POI_TAGS.items(), counts_in_order)`: the Kth key
gets the Kth total, keys past the response length keep 0, extra totals are
ignored. -/
def assignFromResponse : List String → List Nat → List (String × Nat)
  | [], _ => []
  | k :: ks, [] => (k, 0) :: assignFromResponse ks []
  | k :: ks, c :: cs => (k, c) :: assignFromResponse ks cs

/-- The retry loop of `fetch_pois_overpass`: `i` is the current attempt
index, the fuel is the number of attempts still allowed.  Success assigns
the response and breaks; a transport error retries only when attempts
remain; parse and unexpected errors break with the dict untouched. -/
def fetchGo (oracle : Nat → AttemptResult) : Nat → Nat → List (String × Nat)
  | _, 0 => initPoiCounts
  | i, fuel + 1 =>
    match oracle i with
    | .success counts => assignFromResponse POI_KEYS counts
    | .transportError => if 0 < fuel then fetchGo oracle (i + 1) fuel else initPoiCounts
    | .parseError => initPoiCounts
    | .unexpectedError => initPoiCounts

/-- `fetch_pois_overpass` with the network abstracted by an attempt oracle:
run the retry loop, then keep only positive counts. -/
def fetch_pois_overpass (oracle : Nat → AttemptResult) (max_retries : Nat) :
    List (String × Nat) :=
  (fetchGo oracle 0 max_retries).filter (fun p => 0 < p.2)

/-- The final mapping produced from one successful, well-formed response
with totals `counts` (the success path of `fetch_pois_overpass`). -/
def resultOnResponse (counts : List Nat) : List (String × Nat) :=
  (assignFromResponse POI_KEYS counts).filter (fun p => 0 < p.2)

/-- Python dict assignment `d[k] = v`: replace in place when the key exists,
append otherwise. -/
def insertEntry (d : List (String × Nat)) (k : String) (v : Nat) :
    List (String × Nat) :=
  match d with
  | [] => [(k, v)]
  | (k0, v0) :: rest =>
    if k0 == k then (k0, v) :: rest else (k0, v0) :: insertEntry rest k v

/-- ASCII whitespace stripped by Python `int()`/`float()` conversion. -/
def isSpaceChar (c : Char) : Bool :=
  c = ' ' || c = '\t' || c = '\n' || c = '\r' || c = '\x0b' || c = '\x0c'

/-- Both-ends whitespace strip performed by Python numeric conversion. -/
def stripWs (cs : List Char) : List Char :=
  ((cs.dropWhile isSpaceChar).reverse.dropWhile isSpaceChar).reverse

/-- Digit run with single underscores allowed between digits (Python
numeric-literal underscores): accumulates the value and the digit count. -/
def digitsUAux : Nat → Nat → List Char → Option (Nat × Nat)
  | acc, nd, [] => some (acc, nd)
  | acc, nd, '_' :: d :: rest =>
    if d.isDigit then digitsUAux (acc * 10 + (d.toNat - 48)) (nd + 1) rest
    else none
  | _, _, ['_'] => none
  | acc, nd, c :: rest =>
    if c.isDigit then digitsUAux (acc * 10 + (c.toNat - 48)) (nd + 1) rest
    else none

/-- Non-empty digit run starting with a digit, underscores between digits;
returns the value and the digit count, `none` on any other shape. -/
def digitsU? (cs : List Char) : Option (Nat × Nat) :=
  match cs with
  | [] => none
  | c :: rest =>
    if c.isDigit then digitsUAux (c.toNat - 48) 1 rest else none

/-- Mantissa of a Python float literal: digits with an optional decimal
point, at least one digit overall (`"12"`, `"12."`, `".5"`, `"1_0.5"`);
returns the concatenated digit value and the number of fraction digits,
so the mantissa denotes `value / 10 ^ fracDigits`. -/
def parseMantissa? (cs : List Char) : Option (Nat × Nat) :=
  match cs.splitOn '.' with
  | [w] => (digitsU? w).map (fun x => (x.1, 0))
  | [[], []] => none
  | [[], f] => (digitsU? f).map (fun x => (x.1, x.2))
  | [w, []] => (digitsU? w).map (fun x => (x.1, 0))
  | [w, f] =>
    match digitsU? w, digitsU? f with
    | some a, some b => some (a.1 * 10 ^ b.2 + b.1, b.2)
    | _, _ => none
  | _ => none

/-- Exponent of a Python float literal: optional sign then a digit run. -/
def parseExp? (cs : List Char) : Option Int :=
  match cs with
  | '+' :: rest => (digitsU? rest).map (fun x => (x.1 : Int))
  | '-' :: rest => (digitsU? rest).map (fun x => -(x.1 : Int))
  | _ => (digitsU? cs).map (fun x => (x.1 : Int))

/-- Finite Python float literal (already lower-cased, sign removed):
mantissa with an optional `e` exponent, as an exact numerator/denominator
pair. -/
def parseNumber? (cs : List Char) : Option (Int × Nat) :=
  match cs.splitOn 'e' with
  | [m] => (parseMantissa? m).map (fun x => ((x.1 : Int), 10 ^ x.2))
  | [m, ex] =>
    match parseMantissa? m, parseExp? ex with
    | some x, some z =>
      some (if 0 ≤ z then (((x.1 * 10 ^ z.toNat : Nat) : Int), 10 ^ x.2)
            else ((x.1 : Int), 10 ^ x.2 * 10 ^ (-z).toNat))
    | _, _ => none
  | _ => none

/-- Value of a Python `float`: finite, signed infinity, or nan. -/
inductive PyFloatVal where
  | finite (q : ℚ)
  | infinite (neg : Bool)
  | nan
deriving DecidableEq

/-- Python `float(s)` on a query-string value: strip whitespace, optional
sign, then a number, `inf`/`infinity` or `nan` (case-insensitive,
underscores between digits, optional exponent); `none` models the
`ValueError` raised on non-numeric input.  Digits and whitespace are
modelled at ASCII scope (CPython additionally accepts unicode digit and
space characters). -/
def pyFloat? (s : String) : Option PyFloatVal :=
  let cs := stripWs s.data
  let signed : Bool × List Char :=
    match cs with
    | '+' :: rest => (false, rest)
    | '-' :: rest => (true, rest)
    | _ => (false, cs)
  let low := signed.2.map Char.toLower
  if low = "inf".data || low = "infinity".data then
    some (.infinite signed.1)
  else if low = "nan".data then some .nan
  else (parseNumber? low).map (fun nd =>
    .finite (mkRat (if signed.1 then -nd.1 else nd.1) nd.2))

/-- Python `int(s)` on a query-string value: strip whitespace, optional
sign, then a base-10 digit run with underscores between digits; `none`
models the `ValueError`.  ASCII digits/whitespace, as for `pyFloat?`. -/
def pyInt? (s : String) : Option Int :=
  match stripWs s.data with
  | '+' :: rest => (digitsU? rest).map (fun x => (x.1 : Int))
  | '-' :: rest => (digitsU? rest).map (fun x => -(x.1 : Int))
  | cs => (digitsU? cs).map (fun x => (x.1 : Int))

/-- `parse_humidity` from `prompt/views.py`: parse as `int`, silently
falling back to `0` on any invalid value. -/
def parse_humidity (humidity_str : String) : Int :=
  match pyInt? humidity_str with
  | some n => n
  | none => 0

/-- The raw query parameters of `prompt_view`; `humidity` and `radius` are
`none` when absent from the query string (they have defaults). -/
structure RawParams where
  lat : String
  lon : String
  city : String
  district : String
  temp_c : String
  sky : String
  humidity : Option String
  radius : Option String

/-- The view-level `SceneInput` as constructed in `prompt_view`, with the
full Python float values (possibly infinite or nan) that `float()` can
return.  The ℚ-based `SceneInput` used by the pipeline claims is its image
when the floats are finite. -/
structure SceneRequest where
  lat : PyFloatVal
  lon : PyFloatVal
  city : String
  district : String
  temperature_c : PyFloatVal
  sky : String
  humidity_pct : ℤ
  radius_m : ℤ
  local_dt : String
deriving DecidableEq

/-- The `SceneInput(...)` construction in `prompt_view`, evaluating the
parameter conversions in source order; `.error` models the
`KeyError`/`ValueError` path that returns a 400 response before any core
component runs.  `now` is the resolved local date-time string. -/
def parseSceneParams (now : String) (p : RawParams) : Except String SceneRequest :=
  match pyFloat? p.lat with
  | none => .error "lat"
  | some la =>
    match pyFloat? p.lon with
    | none => .error "lon"
    | some lo =>
      match pyFloat? p.temp_c with
      | none => .error "temp_c"
      | some t =>
        match (match p.radius with
               | none => some (350 : Int)
               | some rs => pyInt? rs) with
        | none => .error "radius"
        | some r =>
          .ok ⟨la, lo, p.city, p.district, t, p.sky,
               parse_humidity (p.humidity.getD "0"), r, now⟩

/-- Sample mild-weather scene (temperature strictly between the 5°C and
27°C thresholds). -/
def sceneMild : SceneInput :=
  ⟨37.54, 127.05, "Seoul", "Seongsu-dong", 20, "cloudy", 50, 350,
   "2025-01-01 Wednesday, 12:00"⟩

/-- Sample hot-weather scene (30°C). -/
def sceneHot : SceneInput :=
  ⟨37.54, 127.05, "Seoul", "Seongsu-dong", 30, "sunny", 70, 350,
   "2025-08-01 Friday, 12:00"⟩

/-- Sample cold-weather scene (0°C). -/
def sceneCold : SceneInput :=
  ⟨37.54, 127.05, "Seoul", "Seongsu-dong", 0, "cloudy", 40, 350,
   "2025-01-01 Wednesday, 12:00"⟩

/-- Sample raw request with a non-numeric humidity value. -/
def rawHumidityNA : RawParams :=
  ⟨"37.54", "127.05", "Seoul", "Seongsu-dong", "20.5", "sunny", some "N/A", none⟩

/-- Sample raw request with a non-numeric temperature value. -/
def rawTempBad : RawParams :=
  ⟨"37.54", "127.05", "Seoul", "Seongsu-dong", "abc", "sunny", some "55", none⟩

/-! ## Helper lemmas -/

theorem dedupFirstGo_eq_self (seen l : List String) (hnd : l.Nodup)
    (hs : ∀ x ∈ l, x ∉ seen) : dedupFirstGo seen l = l := by
  induction l generalizing seen with
  | nil => rfl
  | cons x xs ih =>
    simp only [dedupFirstGo]
    rw [if_neg (hs x (by simp))]
    have hx := (List.nodup_cons.mp hnd).1
    refine congrArg (x :: ·) (ih (x :: seen) (List.nodup_cons.mp hnd).2 ?_)
    intro y hy
    simp only [List.mem_cons]
    rintro (rfl | hsn)
    · exact hx hy
    · exact hs y (List.mem_cons_of_mem x hy) hsn

theorem mem_dedupFirstGo (x : String) (l : List String) :
    ∀ seen, x ∈ dedupFirstGo seen l ↔ (x ∈ l ∧ x ∉ seen) := by
  induction l with
  | nil => intro seen; simp [dedupFirstGo]
  | cons y ys ih =>
    intro seen
    simp only [dedupFirstGo]
    split
    · rw [ih seen]
      constructor
      · rintro ⟨hx, hns⟩; exact ⟨List.mem_cons_of_mem y hx, hns⟩
      · rintro ⟨hx, hns⟩
        rcases List.mem_cons.mp hx with rfl | hx
        · exact absurd (by assumption) hns
        · exact ⟨hx, hns⟩
    · rename_i hy
      constructor
      · intro hx
        rcases List.mem_cons.mp hx with rfl | hx
        · exact ⟨List.mem_cons_self x ys, hy⟩
        · have := (ih (y :: seen)).mp hx
          refine ⟨List.mem_cons_of_mem y this.1, fun hc => this.2 (List.mem_cons_of_mem y hc)⟩
      · rintro ⟨hx, hns⟩
        rcases List.mem_cons.mp hx with rfl | hx
        · exact List.mem_cons_self x _
        · by_cases hxy : x = y
          · subst hxy; exact List.mem_cons_self x _
          · refine List.mem_cons_of_mem y ((ih (y :: seen)).mpr ⟨hx, ?_⟩)
            simp only [List.mem_cons]
            rintro (rfl | hc)
            · exact hxy rfl
            · exact hns hc

theorem mem_dedupFirst (x : String) (l : List String) :
    x ∈ dedupFirst l ↔ x ∈ l := by
  simp [dedupFirst, mem_dedupFirstGo]

theorem ite_sublist {c : Prop} [Decidable c] (l : List String) :
    List.Sublist (if c then l else []) l := by
  split
  · exact List.Sublist.refl l
  · exact List.nil_sublist l

theorem mem_ite_nil {x : String} {c : Prop} [Decidable c] {l : List String}
    (h : x ∈ if c then l else []) : x ∈ l := by
  by_cases hc : c
  · rwa [if_pos hc] at h
  · rw [if_neg hc] at h; cases h

theorem weatherIntents_sublist (t : ℚ) (s : String) (h : ℤ) :
    List.Sublist (weatherIntents t s h)
      ["heat_relief", "hydration", "lighter_meal", "warmth", "hearty_meal",
       "very_sunny", "high_humidity"] :=
  List.Sublist.append
    (List.Sublist.append (List.Sublist.append (ite_sublist _) (ite_sublist _))
      (ite_sublist _)) (ite_sublist _)

theorem poiIntents_sublist (c : List (String × Nat)) :
    List.Sublist (poiIntents c)
      ["portable", "quick_serve", "low_wait", "street_food_friendly",
       "dessert_pairing_possible", "iced_beverage_pair", "picnic_ready",
       "shareable", "rush_lunch", "budget_sensitive"] :=
  List.Sublist.append
    (List.Sublist.append
      (List.Sublist.append (List.Sublist.append (ite_sublist _) (ite_sublist _))
        (ite_sublist _)) (ite_sublist _)) (ite_sublist _)

theorem rawIntents_nodup (t : ℚ) (s : String) (h : ℤ) (c : List (String × Nat)) :
    (weatherIntents t s h ++ poiIntents c).Nodup :=
  List.Nodup.sublist
    (List.Sublist.append (weatherIntents_sublist t s h) (poiIntents_sublist c))
    (by decide)

/-! ## Claims -/

/-- Claim C6: `derive_intents(30.0, "sunny", 70, {"cafe": 5})` returns exactly
`heat_relief, hydration, lighter_meal, very_sunny, high_humidity,
dessert_pairing_possible, iced_beverage_pair` in that order, and
`derive_intents(5.0, "cloudy", 40, {"bakery": 3})` returns exactly
`warmth, hearty_meal, dessert_pairing_possible, iced_beverage_pair`. -/
theorem claim_c6_intent_determinism :
    derive_intents 30 "sunny" 70 [("cafe", 5)] =
      ["heat_relief", "hydration", "lighter_meal", "very_sunny", "high_humidity",
       "dessert_pairing_possible", "iced_beverage_pair"] ∧
    derive_intents 5 "cloudy" 40 [("bakery", 3)] =
      ["warmth", "hearty_meal", "dessert_pairing_possible", "iced_beverage_pair"] :=
  ⟨by decide, by decide⟩

/-- Claim C7: for every input, `derive_intents` returns a duplicate-free
list equal to the weather-rule contributions (rules 1-4, fixed order)
followed by the POI-rule contributions (rules 5-9, fixed order), i.e. each
label appears at most once and labels appear in first-derivation order
with weather-derived intents before POI-derived intents. -/
theorem claim_c7_intent_order_nodup (t : ℚ) (s : String) (h : ℤ)
    (c : List (String × Nat)) :
    (derive_intents t s h c).Nodup ∧
    derive_intents t s h c = weatherIntents t s h ++ poiIntents c := by
  have hnd := rawIntents_nodup t s h c
  have he : derive_intents t s h c = weatherIntents t s h ++ poiIntents c :=
    dedupFirstGo_eq_self [] _ hnd (by simp)
  exact ⟨he ▸ hnd, he⟩

/-- Claim C8: for every oracle behaviour and retry bound, every entry of the
mapping returned by the POI counter has a strictly positive count. -/
theorem claim_c8_positive_counts (oracle : Nat → AttemptResult) (m : Nat) :
    ∀ p ∈ fetch_pois_overpass oracle m, 0 < p.2 := by
  intro p hp
  exact of_decide_eq_true (List.mem_filter.mp hp).2

/-- Witness for C8 at a concrete successful response. -/
theorem claim_c8_witness :
    ("bus_stop", 5) ∈ fetch_pois_overpass (fun _ => AttemptResult.success [5]) 3 ∧
    0 < (("bus_stop", 5) : String × Nat).2 :=
  ⟨by decide,
   claim_c8_positive_counts (fun _ => AttemptResult.success [5]) 3
     ("bus_stop", 5) (by decide)⟩

/-- Claim C5: the POI counter always returns a mapping; when every one of
the 3 attempts fails with a transport error the result is the empty
mapping, and a parsing failure on the first attempt is not retried and
also falls through to the empty mapping. -/
theorem claim_c5_fetch_failure_semantics (oracle : Nat → AttemptResult) :
    ((∀ i, i < 3 → oracle i = AttemptResult.transportError) →
      fetch_pois_overpass oracle 3 = []) ∧
    (oracle 0 = AttemptResult.parseError → fetch_pois_overpass oracle 3 = []) := by
  constructor
  · intro h
    have h0 := h 0 (by norm_num)
    have h1 := h 1 (by norm_num)
    have h2 := h 2 (by norm_num)
    have hgo : fetchGo oracle 0 3 = initPoiCounts := by
      simp [fetchGo, h0, h1, h2]
    simp only [fetch_pois_overpass, hgo]
    decide
  · intro h0
    have hgo : fetchGo oracle 0 3 = initPoiCounts := by
      simp [fetchGo, h0]
    simp only [fetch_pois_overpass, hgo]
    decide

/-- Witness for C5: a transport error on all attempts and a first-attempt
parsing error both yield the empty mapping. -/
theorem claim_c5_witness :
    fetch_pois_overpass (fun _ => AttemptResult.transportError) 3 = [] ∧
    fetch_pois_overpass (fun _ => AttemptResult.parseError) 3 = [] :=
  ⟨(claim_c5_fetch_failure_semantics _).1 (fun _ _ => rfl),
   (claim_c5_fetch_failure_semantics _).2 rfl⟩

theorem mem_bias_tags {x : String} {scene : SceneInput} {c : List (String × Nat)}
    {i : List String} (h : x ∈ (derive_bias_explanation scene c i).2) :
    x = "context_only" ∨ x ∈ biasTagsRaw scene c i := by
  simp only [derive_bias_explanation] at h
  by_cases he : (dedupFirst (biasTagsRaw scene c i)).isEmpty
  · rw [if_pos he] at h
    left
    simpa using h
  · rw [if_neg he] at h
    right
    exact (mem_dedupFirst x _).mp h

theorem mem_biasTagsRaw {x : String} {scene : SceneInput} {c : List (String × Nat)}
    {i : List String} (h : x ∈ biasTagsRaw scene c i) :
    x ∈ weatherBiasTags scene.temperature_c ∨
    x ∈ ["iced_ok", "refreshing_pref", "acid_ok", "broth_ok", "quick_serve_pref",
         "portable_pref", "low_wait_pref", "street_food_pref", "dessert_pairing_ok",
         "iced_beverage_pair_ok", "picnic_pref", "shareable_pref", "rush_lunch_pref",
         "budget_pref"] := by
  simp only [biasTagsRaw, List.append_assoc, List.mem_append] at h
  rcases h with h | h | h | h | h | h | h | h
  · exact Or.inl h
  all_goals
    right
    have h2 := mem_ite_nil h
    simp only [List.mem_cons, List.not_mem_nil, or_false] at h2 ⊢
    tauto

theorem keyMem_insertEntry_ne (k key : String) (h : k ≠ key) (v : Nat) :
    ∀ d : List (String × Nat), keyMem k (insertEntry d key v) = keyMem k d := by
  intro d
  induction d with
  | nil =>
    simp only [insertEntry, keyMem, List.any_cons, List.any_nil, Bool.or_false]
    exact beq_eq_false_iff_ne.mpr (fun hk => h hk.symm)
  | cons p t ih =>
    obtain ⟨k0, v0⟩ := p
    simp only [insertEntry]
    by_cases hk : k0 == key
    · rw [if_pos hk]
      simp [keyMem]
    · rw [if_neg (by simpa using hk)]
      simp only [keyMem, List.any_cons] at ih ⊢
      rw [show (insertEntry t key v).any (fun p => p.1 == k) = t.any (fun p => p.1 == k) from ih]

/-- Claim C4: for every scene with temperature ≥ 27 °C the bias tags never
contain `hot_pref` or `hearty_pref`, and for every scene with temperature
≤ 5 °C they never contain `cold_pref`, `light_pref` or `hydration_pref`
(the hot and cold rules are mutually exclusive through the `elif`). -/
theorem claim_c4_bias_weather_exclusivity (scene : SceneInput)
    (c : List (String × Nat)) (i : List String) :
    (27 ≤ scene.temperature_c →
      "hot_pref" ∉ (derive_bias_explanation scene c i).2 ∧
      "hearty_pref" ∉ (derive_bias_explanation scene c i).2) ∧
    (scene.temperature_c ≤ 5 →
      "cold_pref" ∉ (derive_bias_explanation scene c i).2 ∧
      "light_pref" ∉ (derive_bias_explanation scene c i).2 ∧
      "hydration_pref" ∉ (derive_bias_explanation scene c i).2) := by
  constructor
  · intro ht
    have key : ∀ x : String, x ∈ (derive_bias_explanation scene c i).2 →
        x = "context_only" ∨
        x ∈ (["cold_pref", "light_pref", "hydration_pref"] : List String) ∨
        x ∈ (["iced_ok", "refreshing_pref", "acid_ok", "broth_ok", "quick_serve_pref",
              "portable_pref", "low_wait_pref", "street_food_pref", "dessert_pairing_ok",
              "iced_beverage_pair_ok", "picnic_pref", "shareable_pref", "rush_lunch_pref",
              "budget_pref"] : List String) := by
      intro x hx
      rcases mem_bias_tags hx with h | h
      · exact Or.inl h
      · rcases mem_biasTagsRaw h with h | h
        · unfold weatherBiasTags at h
          rw [if_pos ht] at h
          exact Or.inr (Or.inl h)
        · exact Or.inr (Or.inr h)
    constructor
    · intro hmem
      rcases key _ hmem with h | h | h <;> revert h <;> decide
    · intro hmem
      rcases key _ hmem with h | h | h <;> revert h <;> decide
  · intro ht
    have hnot : ¬ 27 ≤ scene.temperature_c := by
      intro hge
      linarith
    have key : ∀ x : String, x ∈ (derive_bias_explanation scene c i).2 →
        x = "context_only" ∨
        x ∈ (["hot_pref", "hearty_pref"] : List String) ∨
        x ∈ (["iced_ok", "refreshing_pref", "acid_ok", "broth_ok", "quick_serve_pref",
              "portable_pref", "low_wait_pref", "street_food_pref", "dessert_pairing_ok",
              "iced_beverage_pair_ok", "picnic_pref", "shareable_pref", "rush_lunch_pref",
              "budget_pref"] : List String) := by
      intro x hx
      rcases mem_bias_tags hx with h | h
      · exact Or.inl h
      · rcases mem_biasTagsRaw h with h | h
        · unfold weatherBiasTags at h
          rw [if_neg hnot, if_pos ht] at h
          exact Or.inr (Or.inl h)
        · exact Or.inr (Or.inr h)
    refine ⟨?_, ?_, ?_⟩ <;>
      · intro hmem
        rcases key _ hmem with h | h | h <;> revert h <;> decide

/-- Witness for C4 at a 30 °C scene and a 0 °C scene. -/
theorem claim_c4_witness :
    "hot_pref" ∉ (derive_bias_explanation sceneHot [] []).2 ∧
    "cold_pref" ∉ (derive_bias_explanation sceneCold [] []).2 :=
  ⟨((claim_c4_bias_weather_exclusivity sceneHot [] []).1 (by decide)).1,
   ((claim_c4_bias_weather_exclusivity sceneCold [] []).2 (by decide)).1⟩

/-- Counterexample to C3 as stated: at a mild scene with no POI data and no
intents, exactly one fallback sentence is returned, but it is the source
literal "No strong POI bias; default to weather/time suitability.", not the
claimed literal "no strong bias; default to weather/time suitability". -/
theorem claim_c3_counterexample :
    (derive_bias_explanation sceneMild [] []).1 =
      ["No strong POI bias; default to weather/time suitability."] ∧
    (derive_bias_explanation sceneMild [] []).1 ≠
      ["no strong bias; default to weather/time suitability"] :=
  ⟨by decide, by decide⟩

/-- Claim C3 (amended): when zero bias rules fire, the result is exactly one
sentence, the fixed fallback "No strong POI bias; default to weather/time
suitability.", with tag list `["context_only"]`; and for every input both
the sentence list and the tag list are non-empty. -/
theorem claim_c3_amended_fallback :
    (∀ (scene : SceneInput) (c : List (String × Nat)) (i : List String),
      ¬ 27 ≤ scene.temperature_c → ¬ scene.temperature_c ≤ 5 →
      "very_sunny" ∉ i → "high_humidity" ∉ i →
      (∀ k ∈ (["bus_stop", "subway_entrance", "marketplace", "supermarket", "cafe",
               "bakery", "ice_cream", "park", "river", "office", "school",
               "university"] : List String), keyMem k c = false) →
      derive_bias_explanation scene c i =
        (["No strong POI bias; default to weather/time suitability."],
         ["context_only"])) ∧
    (∀ (scene : SceneInput) (c : List (String × Nat)) (i : List String),
      (derive_bias_explanation scene c i).1 ≠ [] ∧
      (derive_bias_explanation scene c i).2 ≠ []) := by
  constructor
  · intro scene c i h27 h5 hvs hhh hpoi
    have hb1 := hpoi "bus_stop" (by decide)
    have hb2 := hpoi "subway_entrance" (by decide)
    have hb3 := hpoi "marketplace" (by decide)
    have hb4 := hpoi "supermarket" (by decide)
    have hb5 := hpoi "cafe" (by decide)
    have hb6 := hpoi "bakery" (by decide)
    have hb7 := hpoi "ice_cream" (by decide)
    have hb8 := hpoi "park" (by decide)
    have hb9 := hpoi "river" (by decide)
    have hb10 := hpoi "office" (by decide)
    have hb11 := hpoi "school" (by decide)
    have hb12 := hpoi "university" (by decide)
    have hlines : biasLinesRaw scene c i = [] := by
      simp [biasLinesRaw, weatherBiasLines, h27, h5, hvs, hhh,
            hb1, hb2, hb3, hb4, hb5, hb6, hb7, hb8, hb9, hb10, hb11, hb12]
    have htags : biasTagsRaw scene c i = [] := by
      simp [biasTagsRaw, weatherBiasTags, h27, h5, hvs, hhh,
            hb1, hb2, hb3, hb4, hb5, hb6, hb7, hb8, hb9, hb10, hb11, hb12]
    simp [derive_bias_explanation, hlines, htags, dedupFirst, dedupFirstGo]
  · intro scene c i
    constructor
    · simp only [derive_bias_explanation]
      split
      · simp
      · rename_i hne
        intro hcontra
        exact hne (by simp [hcontra])
    · simp only [derive_bias_explanation]
      split
      · simp
      · rename_i hne
        intro hcontra
        exact hne (by simp [hcontra])

/-- Witness for C3 (amended) at the mild sample scene with empty POI data
and no intents. -/
theorem claim_c3_witness :
    derive_bias_explanation sceneMild [] [] =
      (["No strong POI bias; default to weather/time suitability."],
       ["context_only"]) :=
  claim_c3_amended_fallback.1 sceneMild [] [] (by decide) (by decide)
    (by decide) (by decide) (by decide)

/-- Counterexample to C2 as stated: a request whose humidity field is the
non-numeric string "N/A" is not rejected — parameter parsing succeeds and
the humidity is silently coerced to 0. -/
theorem claim_c2_counterexample :
    (parseSceneParams "2025-01-01 Wednesday, 12:00" rawHumidityNA).isOk = true ∧
    (parseSceneParams "2025-01-01 Wednesday, 12:00" rawHumidityNA).toOption.map
      (fun s => s.humidity_pct) = some 0 :=
  ⟨by decide, by decide⟩

/-- Model-faithfulness checks for the Python numeric conversions:
whitespace padding, exponents, underscores and inf/nan forms are accepted
(with the values `float()`/`int()` produce), and the non-numeric inputs of
the claim are refused. -/
theorem py_conversion_checks :
    pyFloat? " 28 " = some (PyFloatVal.finite 28) ∧
    pyFloat? "1e5" = some (PyFloatVal.finite 100000) ∧
    pyFloat? "1.5E-1" = some (PyFloatVal.finite (mkRat 3 20)) ∧
    pyFloat? "1_000.5" = some (PyFloatVal.finite (mkRat 2001 2)) ∧
    pyFloat? "-2.5" = some (PyFloatVal.finite (mkRat (-5) 2)) ∧
    pyFloat? ".5" = some (PyFloatVal.finite (mkRat 1 2)) ∧
    pyFloat? "2." = some (PyFloatVal.finite 2) ∧
    pyFloat? "-Infinity" = some (PyFloatVal.infinite true) ∧
    pyFloat? "NaN" = some PyFloatVal.nan ∧
    pyFloat? "abc" = none ∧
    pyFloat? "1__0" = none ∧
    pyFloat? "" = none ∧
    pyInt? " 5_0 " = some 50 ∧
    pyInt? "-7" = some (-7) ∧
    pyInt? "N/A" = none ∧
    pyInt? "10.5" = none := by
  decide

/-- Claim C2 (amended): a request whose temperature field is not a valid
Python float literal is rejected before any core component runs, but a
non-numeric humidity field is NOT rejected: `parse_humidity` silently
coerces it to the default 0.  Both statements are scoped to ASCII field
values, where the embedded conversions coincide with CPython's. -/
theorem claim_c2_amended_validation :
    (∀ (now : String) (p : RawParams), (∀ ch ∈ p.temp_c.data, ch.toNat < 128) →
      pyFloat? p.temp_c = none →
      (parseSceneParams now p).isOk = false) ∧
    (∀ s : String, (∀ ch ∈ s.data, ch.toNat < 128) →
      pyInt? s = none → parse_humidity s = 0) := by
  constructor
  · intro now p hascii h
    cases hla : pyFloat? p.lat with
    | none => simp [parseSceneParams, hla, Except.isOk, Except.toBool]
    | some la =>
      cases hlo : pyFloat? p.lon with
      | none => simp [parseSceneParams, hla, hlo, Except.isOk, Except.toBool]
      | some lo => simp [parseSceneParams, hla, hlo, h, Except.isOk, Except.toBool]
  · intro s hascii h
    simp [parse_humidity, h]

/-- Witness for C2 (amended): the request with temperature "abc" is
rejected; humidity "N/A" is coerced to 0. -/
theorem claim_c2_witness :
    (parseSceneParams "t" rawTempBad).isOk = false ∧ parse_humidity "N/A" = 0 :=
  ⟨claim_c2_amended_validation.1 "t" rawTempBad (by decide) (by decide),
   claim_c2_amended_validation.2 "N/A" (by decide) (by decide)⟩

/-- Claim C10: the `convenience` POI category does not interfere with intent
or bias derivation — extending any POI-count mapping with a positive
`convenience` entry leaves both `derive_intents` and
`derive_bias_explanation` unchanged. -/
theorem claim_c10_convenience_noninterference (t : ℚ) (s : String) (h : ℤ)
    (c : List (String × Nat)) (n : Nat) (scene : SceneInput) (intents : List String)
    (hn : 0 < n) :
    derive_intents t s h (insertEntry c "convenience" n) = derive_intents t s h c ∧
    derive_bias_explanation scene (insertEntry c "convenience" n) intents =
      derive_bias_explanation scene c intents := by
  have e1 := keyMem_insertEntry_ne "bus_stop" "convenience" (by decide) n c
  have e2 := keyMem_insertEntry_ne "subway_entrance" "convenience" (by decide) n c
  have e3 := keyMem_insertEntry_ne "marketplace" "convenience" (by decide) n c
  have e4 := keyMem_insertEntry_ne "supermarket" "convenience" (by decide) n c
  have e5 := keyMem_insertEntry_ne "cafe" "convenience" (by decide) n c
  have e6 := keyMem_insertEntry_ne "bakery" "convenience" (by decide) n c
  have e7 := keyMem_insertEntry_ne "ice_cream" "convenience" (by decide) n c
  have e8 := keyMem_insertEntry_ne "park" "convenience" (by decide) n c
  have e9 := keyMem_insertEntry_ne "river" "convenience" (by decide) n c
  have e10 := keyMem_insertEntry_ne "office" "convenience" (by decide) n c
  have e11 := keyMem_insertEntry_ne "school" "convenience" (by decide) n c
  have e12 := keyMem_insertEntry_ne "university" "convenience" (by decide) n c
  constructor
  · simp only [derive_intents, poiIntents, e1, e2, e3, e4, e5, e6, e7, e8, e9,
               e10, e11, e12]
  · simp only [derive_bias_explanation, biasLinesRaw, biasTagsRaw, e1, e2, e3,
               e4, e5, e6, e7, e8, e9, e10, e11, e12]

/-- Witness for C10 at a concrete mapping and `n = 1`. -/
theorem claim_c10_witness :
    derive_intents 20 "cloudy" 50 (insertEntry [("cafe", 2)] "convenience" 1) =
      derive_intents 20 "cloudy" 50 [("cafe", 2)] ∧
    derive_bias_explanation sceneMild (insertEntry [("cafe", 2)] "convenience" 1) [] =
      derive_bias_explanation sceneMild [("cafe", 2)] [] :=
  claim_c10_convenience_noninterference 20 "cloudy" 50 [("cafe", 2)] 1 sceneMild []
    (by decide)

theorem assignFromResponse_length (ks : List String) (cs : List Nat) :
    (assignFromResponse ks cs).length = ks.length := by
  induction ks generalizing cs with
  | nil => cases cs <;> rfl
  | cons k ks ih =>
    cases cs with
    | nil => simpa [assignFromResponse] using ih []
    | cons c cs => simpa [assignFromResponse] using ih cs

theorem assignFromResponse_get (ks : List String) (cs : List Nat) (K : Nat)
    (hN : K < ks.length) (hK : K < cs.length) :
    (assignFromResponse ks cs).get
      ⟨K, by rw [assignFromResponse_length]; exact hN⟩ =
    (ks.get ⟨K, hN⟩, cs.get ⟨K, hK⟩) := by
  induction ks generalizing cs K with
  | nil => cases hN
  | cons k ks ih =>
    cases cs with
    | nil => cases hK
    | cons c cs =>
      cases K with
      | zero => rfl
      | succ K =>
        exact ih cs K (Nat.lt_of_succ_lt_succ hN) (Nat.lt_of_succ_lt_succ hK)

theorem assignFromResponse_nil_zero (ks : List String) (p : String × Nat)
    (h : p ∈ assignFromResponse ks []) : p.2 = 0 := by
  induction ks with
  | nil => cases h
  | cons k ks ih =>
    rcases List.mem_cons.mp h with rfl | h
    · rfl
    · exact ih h

theorem assignFromResponse_zero_of_ge (ks : List String) (hnd : ks.Nodup) :
    ∀ (cs : List Nat) (K : Nat) (hN : K < ks.length), cs.length ≤ K →
    ∀ v : Nat, (ks.get ⟨K, hN⟩, v) ∈ assignFromResponse ks cs → v = 0 := by
  induction ks with
  | nil => intro cs K hN; cases hN
  | cons k ks ih =>
    intro cs K hN hle v hmem
    cases cs with
    | nil => exact assignFromResponse_nil_zero _ _ hmem
    | cons c cs =>
      cases K with
      | zero => cases hle
      | succ K =>
        have hN' : K < ks.length := Nat.lt_of_succ_lt_succ hN
        have hget : (k :: ks).get ⟨K + 1, hN⟩ = ks.get ⟨K, hN'⟩ := rfl
        rw [hget] at hmem
        rcases List.mem_cons.mp hmem with heq | hmem
        · exfalso
          have hk : ks.get ⟨K, hN'⟩ = k := congrArg Prod.fst heq
          exact (List.nodup_cons.mp hnd).1 (hk ▸ List.get_mem ks K hN')
        · exact ih (List.nodup_cons.mp hnd).2 cs K hN'
            (Nat.le_of_succ_le_succ hle) v hmem

theorem result_key_absent (counts : List Nat) (K : Nat)
    (hN : K < POI_KEYS.length) (hge : counts.length ≤ K) :
    keyMem (POI_KEYS.get ⟨K, hN⟩) (resultOnResponse counts) = false := by
  rw [keyMem, List.any_eq_false]
  intro p hp
  have hmem := List.mem_filter.mp hp
  intro hbeq
  obtain ⟨k', v⟩ := p
  have hk : k' = POI_KEYS.get ⟨K, hN⟩ := by simpa using hbeq
  subst hk
  have hv0 := assignFromResponse_zero_of_ge POI_KEYS (by decide) counts K hN hge v
    hmem.1
  have hvpos : 0 < v := of_decide_eq_true hmem.2
  omega

/-- Claim C1: for every response of length L ≤ N (N = number of categories),
the Kth response value is assigned to the Kth category key in table order
for every K < L, every category at position ≥ L is absent from the final
mapping, and this assignment is exactly what the fetch routine produces on
a successful response. -/
theorem claim_c1_poi_order_correspondence (counts : List Nat)
    (hL : counts.length ≤ POI_KEYS.length) :
    (∀ K (hK : K < counts.length),
      (assignFromResponse POI_KEYS counts).get
        ⟨K, by rw [assignFromResponse_length]; exact lt_of_lt_of_le hK hL⟩ =
      (POI_KEYS.get ⟨K, lt_of_lt_of_le hK hL⟩, counts.get ⟨K, hK⟩)) ∧
    (∀ K (hN : K < POI_KEYS.length), counts.length ≤ K →
      keyMem (POI_KEYS.get ⟨K, hN⟩) (resultOnResponse counts) = false) ∧
    fetch_pois_overpass (fun _ => AttemptResult.success counts) 3 =
      resultOnResponse counts := by
  refine ⟨?_, ?_, rfl⟩
  · intro K hK
    exact assignFromResponse_get POI_KEYS counts K (lt_of_lt_of_le hK hL) hK
  · intro K hN hge
    exact result_key_absent counts K hN hge

/-- Witness for C1 at the 3-element response `[5, 0, 2]`. -/
theorem claim_c1_witness :
    (assignFromResponse POI_KEYS [5, 0, 2]).get ⟨2, by decide⟩ =
      ("marketplace", 2) ∧
    keyMem "university" (resultOnResponse [5, 0, 2]) = false := by
  have h := claim_c1_poi_order_correspondence [5, 0, 2] (by decide)
  exact ⟨h.1 2 (by decide), h.2.1 12 (by decide) (by decide)⟩

theorem strDataAppend (a b : String) : (a ++ b).data = a.data ++ b.data := rfl

theorem containsSub_of_prefix {n h : List Char} (hp : List.IsPrefix n h) :
    containsSub n h = true := by
  cases h with
  | nil =>
    have hn : n = [] := List.prefix_nil.mp hp
    subst hn
    rfl
  | cons a t =>
    simp only [containsSub, Bool.or_eq_true]
    exact Or.inl (List.isPrefixOf_iff_prefix.mpr hp)

theorem containsSub_append_right (n a b : List Char)
    (h : containsSub n b = true) : containsSub n (a ++ b) = true := by
  induction a with
  | nil => simpa using h
  | cons x xs ih =>
    simp only [List.cons_append, containsSub, Bool.or_eq_true]
    exact Or.inr ih

theorem containsSub_split (n A A1 A2 rest : List Char) (hA : A = A1 ++ A2)
    (h : containsSub n (A2 ++ rest) = true) :
    containsSub n (A ++ rest) = true := by
  subst hA
  rw [List.append_assoc]
  exact containsSub_append_right _ _ _ h

theorem prefix_glue2 (A B X D : List Char) (h : A ++ B = D) :
    List.IsPrefix D (A ++ (B ++ X)) :=
  ⟨X, by rw [← h]; simp [List.append_assoc]⟩

theorem prefix_glue3 (A B C X D : List Char) (h : A ++ (B ++ C) = D) :
    List.IsPrefix D (A ++ (B ++ (C ++ X))) :=
  ⟨X, by rw [← h]; simp [List.append_assoc]⟩

set_option maxRecDepth 4000 in
/-- Claim C9: for every scene in district "Seongsu-dong" and city "Seoul",
the built prompt contains the literal substring `Seongsu-dong, Seoul` and
the literal section header `[SCENE]`; and the surroundings text inside the
prompt is the literal `nothing specific` when the POI mapping is empty and
otherwise the comma-joined, underscore-to-space-converted category keys
followed by `nearby`. -/
theorem claim_c9_prompt_template (scene : SceneInput) (c : List (String × Nat))
    (i : List String) (hd : scene.district = "Seongsu-dong")
    (hc : scene.city = "Seoul") :
    strContains "Seongsu-dong, Seoul" (build_paragraphica_prompt scene c i) = true ∧
    strContains "[SCENE]" (build_paragraphica_prompt scene c i) = true ∧
    (c = [] →
      strContains "- Surroundings: nothing specific"
        (build_paragraphica_prompt scene c i) = true) ∧
    (c ≠ [] →
      strContains ("- Surroundings: " ++
          String.intercalate ", " (c.map (fun p => underscoreToSpace p.1)) ++
          " nearby")
        (build_paragraphica_prompt scene c i) = true) := by
  refine ⟨?_, ?_, ?_, ?_⟩
  · simp only [strContains, build_paragraphica_prompt, locationStr, hd, hc,
               strDataAppend, List.append_assoc]
    apply containsSub_append_right
    exact containsSub_of_prefix (prefix_glue3 _ _ _ _ _ (by decide))
  · simp only [strContains, build_paragraphica_prompt, strDataAppend,
               List.append_assoc]
    exact containsSub_of_prefix
      (List.IsPrefix.trans ⟨"\n    - Location: ".data, by decide⟩
        (List.prefix_append _ _))
  · intro hc0
    subst hc0
    simp only [strContains, build_paragraphica_prompt, surroundingsStr,
               List.isEmpty_nil, if_true, strDataAppend, List.append_assoc]
    apply containsSub_append_right
    apply containsSub_append_right
    apply containsSub_append_right
    apply containsSub_append_right
    apply containsSub_append_right
    apply containsSub_append_right
    refine containsSub_split _ _ "\n    ".data "- Surroundings: ".data _
      (by decide) ?_
    exact containsSub_of_prefix (prefix_glue2 _ _ _ _ (by decide))
  · intro hne
    have hsurr : surroundingsStr c =
        String.intercalate ", " (c.map (fun p => underscoreToSpace p.1)) ++
        " nearby" := by
      rw [surroundingsStr, if_neg]
      intro hiso
      exact hne (by simpa using hiso)
    simp only [strContains, build_paragraphica_prompt, hsurr, strDataAppend,
               List.append_assoc]
    apply containsSub_append_right
    apply containsSub_append_right
    apply containsSub_append_right
    apply containsSub_append_right
    apply containsSub_append_right
    apply containsSub_append_right
    refine containsSub_split _ _ "\n    ".data "- Surroundings: ".data _
      (by decide) ?_
    exact containsSub_of_prefix (prefix_glue3 _ _ _ _ _ rfl)

/-- Witness for C9 at the mild sample scene (district "Seongsu-dong", city
"Seoul") with empty POI data. -/
theorem claim_c9_witness :
    strContains "Seongsu-dong, Seoul"
      (build_paragraphica_prompt sceneMild [] []) = true ∧
    strContains "- Surroundings: nothing specific"
      (build_paragraphica_prompt sceneMild [] []) = true := by
  have h := claim_c9_prompt_template sceneMild [] [] rfl rfl
  exact ⟨h.1, h.2.2.1 rfl⟩

end Paragourmet
